import Mathlib

/-!
# Verification of the Port-Sail voyage-timeline pipeline

Shallow embedding of `src/port-sail-calc.py`: a batch pipeline that
converts split Excel-style timestamps to absolute event times, sorts the
records chronologically, enriches each record with the distance (haversine)
and elapsed duration to its immediate predecessor, and classifies the
interval ending at each record as "At Sea" / "At Port" / "Unknown" from the
`(event, prev_event)` pair.

Modelling conventions:
* Absolute times are rationals counting nanoseconds since the
  `1899-12-30` origin.  `pd.to_datetime(dateStamp, origin='1899-12-30')`
  is called without a `unit` argument, so pandas applies its default unit
  `'ns'` and the date stamp is added as *nanoseconds*;
  `pd.to_timedelta(timeStamp, unit='D')` adds the time stamp as days.
  Both are embedded exactly (in nanoseconds).
* Missing values (pandas `NaN`/`NaT`) in coordinate and shifted columns are
  `Option.none`; Python's `math` functions propagate `NaN`, so a distance
  computed from a missing operand is `none`.
* Real-valued geometry (`math.sin`, `cos`, `sqrt`, `atan2`) is embedded
  over `ℝ`; `atan2` is defined by the usual case split, matching
  `math.atan2` (including `atan2 0 0 = 0`).
* `data.sort_values(by=['event_datetime'])` is an ascending sort by
  `event_datetime`.  The model realises it with `List.insertionSort`,
  one admissible ascending sort; the source's default `kind='quicksort'`
  leaves the relative order of tied keys unspecified, so no theorem below
  relies on how ties are broken.
-/

namespace PortSail

open Real List

/-- `math.radians x`: degree-to-radian conversion used by `haversine`. -/
noncomputable def radians (x : ℝ) : ℝ := x * π / 180

/-- Two-argument arctangent, the embedding of `math.atan2 y x`
(note the argument order: `y` first), by the standard case split. -/
noncomputable def atan2 (y x : ℝ) : ℝ :=
  if 0 < x then arctan (y / x)
  else if x < 0 then
    (if 0 ≤ y then arctan (y / x) + π else arctan (y / x) - π)
  else
    (if 0 < y then π / 2 else if y < 0 then -(π / 2) else 0)

/-- The intermediate value `a` of `haversine` in `src/port-sail-calc.py`
(lines 19-22): after converting the four degree inputs to radians,
`a = sin(dlat/2)**2 + cos(lat1) * cos(lat2) * sin(dlon/2)**2`. -/
noncomputable def haversine_a (lat1 lon1 lat2 lon2 : ℝ) : ℝ :=
  let l1 := radians lat1
  let o1 := radians lon1
  let l2 := radians lat2
  let o2 := radians lon2
  let dlat := l2 - l1
  let dlon := o2 - o1
  sin (dlat / 2) ^ 2 + cos l1 * cos l2 * sin (dlon / 2) ^ 2

/-- `haversine(lat1, lon1, lat2, lon2)` from `src/port-sail-calc.py`
(lines 17-24): `R = 6371`, `c = 2 * atan2(sqrt(a), sqrt(1-a))`,
result `R * c`. -/
noncomputable def haversine (lat1 lon1 lat2 lon2 : ℝ) : ℝ :=
  let R : ℝ := 6371
  let a := haversine_a lat1 lon1 lat2 lon2
  let c := 2 * atan2 (Real.sqrt a) (Real.sqrt (1 - a))
  R * c

/-- The haversine algorithm transcribed from the specification text
(§4.1): convert all four degree values to radians; Δlat, Δlon computed
after conversion; `a = sin²(Δlat/2) + cos(lat1)·cos(lat2)·sin²(Δlon/2)`;
`c = 2·atan2(√a, √(1−a))`; result `= R·c` with `R = 6371`. -/
noncomputable def haversine_spec (lat1 lon1 lat2 lon2 : ℝ) : ℝ :=
  6371 *
    (2 * atan2
      (Real.sqrt (sin ((radians lat2 - radians lat1) / 2) ^ 2 +
        cos (radians lat1) * cos (radians lat2) *
          sin ((radians lon2 - radians lon1) / 2) ^ 2))
      (Real.sqrt (1 - (sin ((radians lat2 - radians lat1) / 2) ^ 2 +
        cos (radians lat1) * cos (radians lat2) *
          sin ((radians lon2 - radians lon1) / 2) ^ 2))))

/-- One raw CSV row, with the columns the pipeline reads.  Coordinates are
`Option`al (a missing cell is pandas `NaN`); the stamps and the event label
are taken as present (a missing stamp would be `NaT`, which none of the
verified claims exercises). -/
structure RawRecord where
  dateStamp : ℚ
  timeStamp : ℚ
  lat : Option ℝ
  lon : Option ℝ
  event : String

/-- Nanoseconds per day. -/
def nsPerDay : ℚ := 86400000000000

/-- Nanoseconds per hour. -/
def nsPerHour : ℚ := 3600000000000

/-- Line 11 of the source, embedded exactly:
`pd.to_datetime(data['dateStamp'], origin='1899-12-30')` supplies no
`unit`, so pandas uses its default unit `'ns'` and adds `dateStamp`
*nanoseconds* to the origin, while
`pd.to_timedelta(data['timeStamp'], unit='D')` adds `timeStamp` days.
The result is the offset from the `1899-12-30` origin in nanoseconds. -/
def event_datetime (r : RawRecord) : ℚ :=
  r.dateStamp + r.timeStamp * nsPerDay

/-- Modelled from the spec (§4.2): `event_time = origin_epoch +
date_stamp_days + time_stamp_fraction_days`, both stamp components added
as day-granularity offsets.  Offset from the origin in nanoseconds. -/
def event_datetime_spec (r : RawRecord) : ℚ :=
  (r.dateStamp + r.timeStamp) * nsPerDay

/-- Line 30 of the source:
`haversine(row['lat'], row['lon'], row['prev_lat'], row['prev_lon'])
if pd.notnull(row['prev_lat']) else 0`.
Only `prev_lat` is null-checked; if it is present but any other operand is
missing, `haversine` receives `NaN` and returns `NaN` (here `none`),
because every `math` function involved propagates `NaN`. -/
noncomputable def distance_travelled
    (lat lon prev_lat prev_lon : Option ℝ) : Option ℝ :=
  match prev_lat with
  | none => some 0
  | some pla =>
    match lat, lon, prev_lon with
    | some la, some lo, some plo => some (haversine la lo pla plo)
    | _, _, _ => none

/-- Lines 38-39 of the source: the `np.where` stage classification.  The
first record's shifted `prev_event` is `NaN` (`none` here), which compares
unequal to both `'SOSP'` and `'EOSP'`. -/
def stage (event : String) (prev_event : Option String) : String :=
  if event = "SOSP" ∧ prev_event = some "EOSP" then "At Sea"
  else if event = "EOSP" ∧ prev_event = some "SOSP" then "At Port"
  else "Unknown"

/-- One fully enriched row of the final dataframe. -/
structure TimelineRecord where
  event_time : ℚ
  lat : Option ℝ
  lon : Option ℝ
  event : String
  prev_lat : Option ℝ
  prev_lon : Option ℝ
  prev_event : Option String
  prev_event_time : Option ℚ
  distance_km : Option ℝ
  duration_hours : Option ℚ
  stage : String

/-- Enrichment of one sorted row given its predecessor (if any): the
`shift(1)` columns, `distance_travelled`, `duration_hours`
(`.dt.total_seconds() / 3600.0`, i.e. nanoseconds / 3.6e12; `NaN` for the
first row) and the stage label, exactly as lines 27-39 compute them. -/
noncomputable def enrich1 (prev : Option RawRecord) (r : RawRecord) :
    TimelineRecord :=
  let pl := prev.bind (fun p => p.lat)
  let po := prev.bind (fun p => p.lon)
  let pe := prev.map (fun p => p.event)
  let pt := prev.map event_datetime
  { event_time := event_datetime r
    lat := r.lat
    lon := r.lon
    event := r.event
    prev_lat := pl
    prev_lon := po
    prev_event := pe
    prev_event_time := pt
    distance_km := distance_travelled r.lat r.lon pl po
    duration_hours := pt.map (fun t => (event_datetime r - t) / nsPerHour)
    stage := stage r.event pe }

/-- Walk the sorted sequence pairing each row with its predecessor —
the positional `shift(1)` lookback of the dataframe. -/
noncomputable def enrichList :
    Option RawRecord → List RawRecord → List TimelineRecord
  | _, [] => []
  | prev, r :: rs => enrich1 prev r :: enrichList (some r) rs

/-- Ascending-by-`event_datetime` comparison used by the sort. -/
def leTime (a b : RawRecord) : Prop :=
  event_datetime a ≤ event_datetime b

instance : DecidableRel leTime := fun a b =>
  inferInstanceAs (Decidable (event_datetime a ≤ event_datetime b))

instance : IsTotal RawRecord leTime :=
  ⟨fun a b => le_total (event_datetime a) (event_datetime b)⟩

instance : IsTrans RawRecord leTime :=
  ⟨fun _ _ _ => le_trans⟩

/-- Line 14 of the source, `data.sort_values(by=['event_datetime'])`:
an ascending sort by `event_datetime`, realised by insertion sort (the
source's default `kind='quicksort'` fixes the ascending order but not the
relative order of tied keys; no theorem below depends on tie order). -/
def sortByTime (rs : List RawRecord) : List RawRecord :=
  List.insertionSort leTime rs

/-- The whole core pipeline of `src/port-sail-calc.py`: timestamp
resolution, chronological sort, pairwise enrichment, stage labels. -/
noncomputable def pipeline (rs : List RawRecord) : List TimelineRecord :=
  enrichList none (sortByTime rs)

/-- Concrete input row used to instantiate theorems: an `EOSP` event at
the origin instant, position (0°, 0°). -/
def w0 : RawRecord := ⟨0, 0, some 0, some 0, "EOSP"⟩

/-- Concrete input row used to instantiate theorems: an `SOSP` event one
nanosecond after `w0`, position (1°, 1°). -/
def w1 : RawRecord := ⟨1, 0, some 1, some 1, "SOSP"⟩

/-- Concrete input row with a missing latitude, one nanosecond
after `w0`. -/
def m1 : RawRecord := ⟨1, 0, none, some 0, "SOSP"⟩

/-- The enriched first row of `pipeline [w0, w1]`. -/
noncomputable def wOut0 : TimelineRecord := enrich1 none w0

/-- The enriched second row of `pipeline [w0, w1]`. -/
noncomputable def wOut1 : TimelineRecord := enrich1 (some w0) w1

/-- The enriched second row of `pipeline [w0, m1]` (predecessor present,
own latitude missing). -/
noncomputable def mOut1 : TimelineRecord := enrich1 (some w0) m1

/-! ## General lemmas about the embedding -/

theorem enrichList_length (p : Option RawRecord) (rs : List RawRecord) :
    (enrichList p rs).length = rs.length := by
  induction rs generalizing p with
  | nil => rfl
  | cons r rs ih => simp [enrichList, ih]

/-- Positional description of the enrichment walk: row `i` of the output
is row `i` of the sorted input enriched with row `i - 1` as predecessor
(the seed `p` for row `0`). -/
theorem enrichList_getElem? (p : Option RawRecord) (rs : List RawRecord)
    (i : ℕ) :
    (enrichList p rs)[i]? =
      (rs[i]?).map (enrich1 (if i = 0 then p else rs[i - 1]?)) := by
  induction rs generalizing p i with
  | nil => simp [enrichList]
  | cons r rs ih =>
    cases i with
    | zero => simp [enrichList]
    | succ n =>
      simp only [enrichList, List.getElem?_cons_succ, ih]
      cases n with
      | zero => simp
      | succ m => simp

theorem stage_eq_atSea_iff (e : String) (pe : Option String) :
    stage e pe = "At Sea" ↔ (e = "SOSP" ∧ pe = some "EOSP") := by
  unfold stage
  split_ifs with h1 h2
  · simp [h1]
  · exact iff_of_false (by decide) h1
  · exact iff_of_false (by decide) h1

theorem stage_eq_atPort_iff (e : String) (pe : Option String) :
    stage e pe = "At Port" ↔ (e = "EOSP" ∧ pe = some "SOSP") := by
  unfold stage
  split_ifs with h1 h2
  · refine iff_of_false (by decide) (fun hc => ?_)
    exact absurd (h1.1.symm.trans hc.1) (by decide)
  · simp [h2]
  · exact iff_of_false (by decide) h2

theorem stage_eq_unknown (e : String) (pe : Option String)
    (h1 : ¬(e = "SOSP" ∧ pe = some "EOSP"))
    (h2 : ¬(e = "EOSP" ∧ pe = some "SOSP")) :
    stage e pe = "Unknown" := by
  unfold stage
  rw [if_neg h1, if_neg h2]

theorem stage_none_eq_unknown (e : String) : stage e none = "Unknown" :=
  stage_eq_unknown e none (by simp) (by simp)

/-- Range of `atan2` on the closed first quadrant: both arguments
non-negative puts the angle in `[0, π/2]`. -/
theorem atan2_mem_quadrant (y x : ℝ) (hy : 0 ≤ y) (hx : 0 ≤ x) :
    0 ≤ atan2 y x ∧ atan2 y x ≤ π / 2 := by
  unfold atan2
  rcases lt_or_eq_of_le hx with hx0 | hx0
  · rw [if_pos hx0]
    constructor
    · have h := Real.arctan_strictMono.monotone (div_nonneg hy hx0.le)
      rwa [Real.arctan_zero] at h
    · exact (Real.arctan_lt_pi_div_two _).le
  · have hxx : x = 0 := hx0.symm
    subst hxx
    rw [if_neg (lt_irrefl 0), if_neg (lt_irrefl 0)]
    split_ifs with hy0 hyn
    · exact ⟨by positivity, le_refl _⟩
    · exact absurd hyn (not_lt.mpr hy)
    · exact ⟨le_refl 0, by positivity⟩

theorem sort_w0w1 : sortByTime [w0, w1] = [w0, w1] := by
  have hle : leTime w0 w1 := by
    norm_num [leTime, event_datetime, nsPerDay, w0, w1]
  simp [sortByTime, List.insertionSort, List.orderedInsert, hle]

theorem sort_w0m1 : sortByTime [w0, m1] = [w0, m1] := by
  have hle : leTime w0 m1 := by
    norm_num [leTime, event_datetime, nsPerDay, w0, m1]
  simp [sortByTime, List.insertionSort, List.orderedInsert, hle]

/-! ## Claim theorems -/

/-- C5: the distance calculator is exactly the haversine formula of the
spec — degrees converted to radians, differences taken after conversion,
`a = sin²(Δlat/2) + cos(lat1)·cos(lat2)·sin²(Δlon/2)`,
`c = 2·atan2(√a, √(1−a))`, result `6371·c`. -/
theorem haversine_eq_spec (lat1 lon1 lat2 lon2 : ℝ) :
    haversine lat1 lon1 lat2 lon2 = haversine_spec lat1 lon1 lat2 lon2 :=
  rfl

/-- C9: the haversine distance is symmetric in its two points. -/
theorem haversine_symm (lat1 lon1 lat2 lon2 : ℝ) :
    haversine lat1 lon1 lat2 lon2 = haversine lat2 lon2 lat1 lon1 := by
  have ha : haversine_a lat1 lon1 lat2 lon2 = haversine_a lat2 lon2 lat1 lon1 := by
    simp only [haversine_a]
    have h1 : (radians lat1 - radians lat2) / 2 =
        -((radians lat2 - radians lat1) / 2) := by ring
    have h2 : (radians lon1 - radians lon2) / 2 =
        -((radians lon2 - radians lon1) / 2) := by ring
    rw [h1, h2, Real.sin_neg, Real.sin_neg, neg_sq, neg_sq]
    ring
  simp only [haversine, ha]

/-- C2: the source resolves `dateStamp` at the pandas *default* unit
(nanoseconds), not days: `pd.to_datetime(data['dateStamp'],
origin='1899-12-30')` is called without `unit='D'`, so a record with
`dateStamp = 1`, `timeStamp = 0` lands 1 nanosecond after the origin,
while the spec places it 1 day (86400e9 ns) after the origin. -/
theorem dateStamp_unit_mismatch :
    event_datetime ⟨1, 0, none, none, "SOSP"⟩ = 1 ∧
    event_datetime_spec ⟨1, 0, none, none, "SOSP"⟩ = 86400000000000 ∧
    event_datetime ⟨1, 0, none, none, "SOSP"⟩ ≠
      event_datetime_spec ⟨1, 0, none, none, "SOSP"⟩ := by
  refine ⟨?_, ?_, ?_⟩ <;> norm_num [event_datetime, event_datetime_spec, nsPerDay]

/-- C1: for every sorted-output record with a predecessor, the stage is
`"At Sea"` iff `(event, prev_event) = (SOSP, EOSP)`, `"At Port"` iff
`(event, prev_event) = (EOSP, SOSP)`, and `"Unknown"` in every other
case; moreover the stage is the pure function `stage` of the
`(event, prev_event)` pair alone. -/
theorem stage_correct (rs : List RawRecord) (i : ℕ) (r p : TimelineRecord)
    (hr : (pipeline rs)[i + 1]? = some r) (hp : (pipeline rs)[i]? = some p) :
    ((r.stage = "At Sea" ↔ (r.event = "SOSP" ∧ p.event = "EOSP")) ∧
     (r.stage = "At Port" ↔ (r.event = "EOSP" ∧ p.event = "SOSP")) ∧
     (¬(r.event = "SOSP" ∧ p.event = "EOSP") →
       ¬(r.event = "EOSP" ∧ p.event = "SOSP") → r.stage = "Unknown")) ∧
    r.stage = stage r.event r.prev_event := by
  rw [pipeline, enrichList_getElem?] at hr hp
  rcases Option.map_eq_some'.mp hp with ⟨s', hs', hps⟩
  simp only [Nat.succ_ne_zero, if_false, Nat.add_sub_cancel, hs'] at hr
  rcases Option.map_eq_some'.mp hr with ⟨s, hs, hrs⟩
  subst hrs
  subst hps
  refine ⟨⟨?_, ?_, ?_⟩, rfl⟩
  · show stage s.event (some s'.event) = "At Sea" ↔ _
    rw [stage_eq_atSea_iff]
    simp [enrich1]
  · show stage s.event (some s'.event) = "At Port" ↔ _
    rw [stage_eq_atPort_iff]
    simp [enrich1]
  · intro h1 h2
    show stage s.event (some s'.event) = "Unknown"
    refine stage_eq_unknown _ _ (fun hc => h1 ?_) (fun hc => h2 ?_)
    · exact ⟨hc.1, by simpa using hc.2⟩
    · exact ⟨hc.1, by simpa using hc.2⟩

/-- C1 witness: on the two-record input `[w0, w1]` (an `EOSP` followed by
an `SOSP`), the second record classifies as `"At Sea"` exactly per the
rule table. -/
theorem stage_correct_witness :
    (pipeline [w0, w1])[0 + 1]? = some wOut1 ∧
    (pipeline [w0, w1])[0]? = some wOut0 ∧
    (((wOut1.stage = "At Sea" ↔ (wOut1.event = "SOSP" ∧ wOut0.event = "EOSP")) ∧
      (wOut1.stage = "At Port" ↔ (wOut1.event = "EOSP" ∧ wOut0.event = "SOSP")) ∧
      (¬(wOut1.event = "SOSP" ∧ wOut0.event = "EOSP") →
        ¬(wOut1.event = "EOSP" ∧ wOut0.event = "SOSP") →
          wOut1.stage = "Unknown")) ∧
     wOut1.stage = stage wOut1.event wOut1.prev_event) := by
  have h1 : (pipeline [w0, w1])[0 + 1]? = some wOut1 := by
    rw [pipeline, sort_w0w1]
    rfl
  have h0 : (pipeline [w0, w1])[0]? = some wOut0 := by
    rw [pipeline, sort_w0w1]
    rfl
  exact ⟨h1, h0, stage_correct [w0, w1] 0 wOut1 wOut0 h1 h0⟩

/-- C6: for every non-empty input the first sorted-output record has
`distance_km = 0`, stage `"Unknown"`, no `prev_*` fields and an undefined
`duration_hours`. -/
theorem first_record_invariant (rs : List RawRecord) (h : rs ≠ []) :
    ∃ r, (pipeline rs).head? = some r ∧
      r.distance_km = some 0 ∧ r.stage = "Unknown" ∧
      r.prev_lat = none ∧ r.prev_lon = none ∧ r.prev_event = none ∧
      r.prev_event_time = none ∧ r.duration_hours = none := by
  cases hss : sortByTime rs with
  | nil =>
    have := congrArg List.length hss
    simp only [sortByTime, List.length_insertionSort, List.length_nil] at this
    exact absurd (List.length_eq_zero.mp this) h
  | cons s ss =>
    refine ⟨enrich1 none s, ?_, rfl, ?_, rfl, rfl, rfl, rfl, rfl⟩
    · rw [pipeline, hss]
      rfl
    · exact stage_none_eq_unknown s.event

/-- C6 witness: the singleton input `[w0]`. -/
theorem first_record_invariant_witness :
    ([w0] : List RawRecord) ≠ [] ∧
    (∃ r, (pipeline [w0]).head? = some r ∧
      r.distance_km = some 0 ∧ r.stage = "Unknown" ∧
      r.prev_lat = none ∧ r.prev_lon = none ∧ r.prev_event = none ∧
      r.prev_event_time = none ∧ r.duration_hours = none) :=
  ⟨by simp, first_record_invariant [w0] (by simp)⟩

/-- C7: the output sequence is non-decreasing in `event_time`: every
adjacent pair of records satisfies
`TimelineRecord[i].event_time ≤ TimelineRecord[i+1].event_time`. -/
theorem monotonic_time (rs : List RawRecord) :
    List.Chain' (fun a b : ℚ => a ≤ b)
      ((pipeline rs).map (fun t => t.event_time)) := by
  have hmap : ∀ (p : Option RawRecord) (l : List RawRecord),
      (enrichList p l).map (fun t => t.event_time) = l.map event_datetime := by
    intro p l
    induction l generalizing p with
    | nil => rfl
    | cons r l ih => simp [enrichList, enrich1, ih]
  rw [pipeline, hmap]
  have hsorted : (sortByTime rs).Sorted leTime :=
    List.sorted_insertionSort leTime rs
  have hpw : List.Pairwise (fun a b : ℚ => a ≤ b)
      ((sortByTime rs).map event_datetime) := by
    rw [List.pairwise_map]
    exact hsorted.imp (fun h => h)
  exact hpw.chain'

/-- C8: `duration_hours` is `NaN` (undefined) exactly for the first sorted
record; every later record's `duration_hours` is the raw difference of its
`event_time` and its predecessor's, converted from nanoseconds to hours,
with no clamping applied. -/
theorem duration_raw_difference (rs : List RawRecord) (i : ℕ)
    (r : TimelineRecord) (hr : (pipeline rs)[i]? = some r) :
    (i = 0 → r.duration_hours = none) ∧
    (∀ j, i = j + 1 → ∃ p, (pipeline rs)[j]? = some p ∧
      r.duration_hours =
        some ((r.event_time - p.event_time) / nsPerHour)) := by
  rw [pipeline, enrichList_getElem?] at hr
  rcases Option.map_eq_some'.mp hr with ⟨s, hs, hrs⟩
  constructor
  · intro h0
    subst h0
    simp only [if_pos rfl] at hrs
    subst hrs
    rfl
  · intro j hj
    subst hj
    simp only [Nat.succ_ne_zero, if_false, Nat.add_sub_cancel] at hrs
    have hlen : j + 1 < (sortByTime rs).length := by
      by_contra hge
      rw [List.getElem?_eq_none (Nat.le_of_not_lt hge)] at hs
      cases hs
    have hjlen : j < (sortByTime rs).length := by omega
    obtain ⟨s', hs'⟩ : ∃ s', (sortByTime rs)[j]? = some s' :=
      ⟨_, List.getElem?_eq_getElem hjlen⟩
    rw [hs'] at hrs
    subst hrs
    refine ⟨enrich1 (if j = 0 then none else (sortByTime rs)[j - 1]?) s',
      ?_, rfl⟩
    rw [pipeline, enrichList_getElem?, hs']
    rfl

/-- C8 witness: on `[w0, w1]` the second record's duration is the raw
time difference in hours. -/
theorem duration_raw_difference_witness :
    (pipeline [w0, w1])[1]? = some wOut1 ∧
    ((1 = 0 → wOut1.duration_hours = none) ∧
     (∀ j, 1 = j + 1 → ∃ p, (pipeline [w0, w1])[j]? = some p ∧
       wOut1.duration_hours =
         some ((wOut1.event_time - p.event_time) / nsPerHour))) := by
  have h1 : (pipeline [w0, w1])[1]? = some wOut1 := by
    rw [pipeline, sort_w0w1]
    rfl
  exact ⟨h1, duration_raw_difference [w0, w1] 1 wOut1 h1⟩

/-- C4 counterexample: in `pipeline [w0, m1]` the record `m1` has a
missing latitude and a defined predecessor (`w0`, whose latitude is
present), and its `distance_km` is `NaN` (`none`), not `0`: the source
null-checks only `prev_lat`, so the record's own missing latitude flows
into `haversine` as `NaN`.  The claim asserts `distance_km = 0` for this
record. -/
theorem missing_latitude_counterexample :
    ((pipeline [w0, m1]).map (fun t => t.distance_km)) = [some 0, none] ∧
    (none : Option ℝ) ≠ some 0 := by
  constructor
  · rw [pipeline, sort_w0m1]
    rfl
  · simp

/-- C4 as amended: `distance_km = 0` whenever the *predecessor's latitude*
is unavailable (first record included); but when `prev_lat` is present and
any of the record's own latitude/longitude or the predecessor's longitude
is missing, `distance_km` is `NaN` (undefined), not `0`.  In particular a
record with a missing latitude propagates `NaN` (when its predecessor has
a latitude), while the record *following* it gets `distance_km = 0`, since
`prev_lat` links to the predecessor's (missing) latitude. -/
theorem distance_missing_coordinate (rs : List RawRecord) (i : ℕ)
    (r : TimelineRecord) (hr : (pipeline rs)[i]? = some r) :
    (r.prev_lat = none → r.distance_km = some 0) ∧
    (r.prev_lat ≠ none →
      (r.lat = none ∨ r.lon = none ∨ r.prev_lon = none) →
      r.distance_km = none) ∧
    (∀ j p, i = j + 1 → (pipeline rs)[j]? = some p →
      r.prev_lat = p.lat) := by
  rw [pipeline, enrichList_getElem?] at hr
  rcases Option.map_eq_some'.mp hr with ⟨s, hs, hrs⟩
  subst hrs
  set prev := (if i = 0 then none else (sortByTime rs)[i - 1]?) with hprev
  refine ⟨?_, ?_, ?_⟩
  · intro hnone
    show distance_travelled s.lat s.lon (prev.bind fun p => p.lat)
      (prev.bind fun p => p.lon) = some 0
    have : (prev.bind fun p => p.lat) = none := hnone
    rw [this]
    rfl
  · intro hsome hmiss
    show distance_travelled s.lat s.lon (prev.bind fun p => p.lat)
      (prev.bind fun p => p.lon) = none
    rcases Option.ne_none_iff_exists.mp hsome with ⟨pla, hpla⟩
    have hpla' : (prev.bind fun p => p.lat) = some pla := hpla.symm
    rw [hpla']
    rcases hmiss with hm | hm | hm
    · rw [show s.lat = none from hm]
      rfl
    · rw [show s.lon = none from hm]
      cases s.lat <;> rfl
    · rw [show (prev.bind fun p => p.lon) = none from hm]
      cases s.lat <;> cases s.lon <;> rfl
  · intro j p hij hp
    subst hij
    rw [pipeline, enrichList_getElem?] at hp
    rcases Option.map_eq_some'.mp hp with ⟨s', hs', hps⟩
    subst hps
    show prev.bind (fun q => q.lat) = s'.lat
    rw [hprev]
    simp only [Nat.succ_ne_zero, if_false, Nat.add_sub_cancel, hs']
    rfl

/-- C4-amended witness: on `[w0, m1]`, the record built from `m1` has a
present `prev_lat` and a missing own latitude, so its `distance_km` is
`NaN`; its `prev_lat` is the predecessor's latitude. -/
theorem distance_missing_coordinate_witness :
    (pipeline [w0, m1])[1]? = some mOut1 ∧
    ((mOut1.prev_lat = none → mOut1.distance_km = some 0) ∧
     (mOut1.prev_lat ≠ none →
       (mOut1.lat = none ∨ mOut1.lon = none ∨ mOut1.prev_lon = none) →
       mOut1.distance_km = none) ∧
     (∀ j p, 1 = j + 1 → (pipeline [w0, m1])[j]? = some p →
       mOut1.prev_lat = p.lat)) := by
  have h1 : (pipeline [w0, m1])[1]? = some mOut1 := by
    rw [pipeline, sort_w0m1]
    rfl
  exact ⟨h1, distance_missing_coordinate [w0, m1] 1 mOut1 h1⟩

/-- C10: for latitudes within [−90°, 90°] the intermediate value `a` of
the haversine computation lies in `[0, 1]`, and the returned distance lies
between `0` and `6371·π` km (half the Earth's great-circle
circumference). -/
theorem haversine_bounds (lat1 lon1 lat2 lon2 : ℝ)
    (h1 : -90 ≤ lat1) (h2 : lat1 ≤ 90) (h3 : -90 ≤ lat2) (h4 : lat2 ≤ 90) :
    (0 ≤ haversine_a lat1 lon1 lat2 lon2 ∧
      haversine_a lat1 lon1 lat2 lon2 ≤ 1) ∧
    (0 ≤ haversine lat1 lon1 lat2 lon2 ∧
      haversine lat1 lon1 lat2 lon2 ≤ 6371 * π) := by
  have hpi := Real.pi_pos
  have hc1 : 0 ≤ cos (radians lat1) := by
    apply Real.cos_nonneg_of_mem_Icc
    constructor
    · unfold radians
      nlinarith
    · unfold radians
      nlinarith
  have hc2 : 0 ≤ cos (radians lat2) := by
    apply Real.cos_nonneg_of_mem_Icc
    constructor
    · unfold radians
      nlinarith
    · unfold radians
      nlinarith
  have key : haversine_a lat1 lon1 lat2 lon2 =
      sin ((radians lat2 - radians lat1) / 2) ^ 2 +
        cos (radians lat1) * cos (radians lat2) *
          sin ((radians lon2 - radians lon1) / 2) ^ 2 := rfl
  set p := radians lat1 with hp
  set q := radians lat2 with hq
  set e := (radians lon2 - radians lon1) / 2 with he
  have hs2 : sin e ^ 2 ≤ 1 := by
    nlinarith [sin_sq_add_cos_sq e, sq_nonneg (cos e)]
  have hCC : 0 ≤ cos p * cos q := mul_nonneg hc1 hc2
  have ha0 : 0 ≤ haversine_a lat1 lon1 lat2 lon2 := by
    rw [key]
    exact add_nonneg (sq_nonneg _) (mul_nonneg hCC (sq_nonneg _))
  have hcos2 : cos (q - p) = 2 * cos ((q - p) / 2) ^ 2 - 1 := by
    have h := Real.cos_two_mul ((q - p) / 2)
    rw [show 2 * ((q - p) / 2) = q - p by ring] at h
    exact h
  have hpyth : sin ((q - p) / 2) ^ 2 + cos ((q - p) / 2) ^ 2 = 1 :=
    sin_sq_add_cos_sq _
  have hsub : cos (q - p) = cos q * cos p + sin q * sin p := Real.cos_sub q p
  have hadd : cos (q + p) = cos q * cos p - sin q * sin p := Real.cos_add q p
  have h1c : cos (q + p) ≤ 1 := Real.cos_le_one _
  have ha1 : haversine_a lat1 lon1 lat2 lon2 ≤ 1 := by
    rw [key]
    nlinarith [mul_le_mul_of_nonneg_left hs2 hCC]
  have hdist : haversine lat1 lon1 lat2 lon2 =
      6371 * (2 * atan2 (Real.sqrt (haversine_a lat1 lon1 lat2 lon2))
        (Real.sqrt (1 - haversine_a lat1 lon1 lat2 lon2))) := rfl
  obtain ⟨hat0, hat1⟩ := atan2_mem_quadrant
    (Real.sqrt (haversine_a lat1 lon1 lat2 lon2))
    (Real.sqrt (1 - haversine_a lat1 lon1 lat2 lon2))
    (Real.sqrt_nonneg _) (Real.sqrt_nonneg _)
  refine ⟨⟨ha0, ha1⟩, ?_, ?_⟩
  · rw [hdist]
    nlinarith
  · rw [hdist]
    nlinarith

/-- C10 witness: instantiation at the equator/prime-meridian point
(0°, 0°) for both records. -/
theorem haversine_bounds_witness :
    ((-90 : ℝ) ≤ 0 ∧ (0 : ℝ) ≤ 90) ∧
    ((0 ≤ haversine_a 0 0 0 0 ∧ haversine_a 0 0 0 0 ≤ 1) ∧
     (0 ≤ haversine 0 0 0 0 ∧ haversine 0 0 0 0 ≤ 6371 * π)) :=
  ⟨⟨by norm_num, by norm_num⟩,
    haversine_bounds 0 0 0 0 (by norm_num) (by norm_num) (by norm_num)
      (by norm_num)⟩

end PortSail
